import Mathlib

/-!
Verification of the voice-guided religious-education app
(React front end in `App.tsx` / `QuizScreen`, serverless TTS proxy in `tts.js`).

The JavaScript/TypeScript handlers are shallowly embedded as pure Lean
functions over explicit state records; browser callbacks (speech recognizer
events, audio `ended` events, timers) become events of a step function, and
the React effects that deterministically follow a state change are folded
into the transition that triggers them.
-/

/-! ## JavaScript string primitives -/

/-- Model of JavaScript `String.prototype.toLowerCase`, applied
characterwise (the same result as `String.toLower`).  The commands of
interest are ASCII or Tamil; Tamil has no case, so ASCII lowering matches. -/
def jsToLower (s : String) : String := ⟨s.toList.map Char.toLower⟩

/-- Model of JavaScript `String.prototype.trim`: drop leading and trailing
whitespace. -/
def jsTrim (s : String) : String :=
  ⟨((s.toList.dropWhile Char.isWhitespace).reverse.dropWhile Char.isWhitespace).reverse⟩

/-- Model of JavaScript `s.includes(pat)`: `pat` occurs as a contiguous
substring of `s`. -/
def jsIncludes (s pat : String) : Bool := decide (pat.toList <:+: s.toList)

/-- Model of `s.replace(/[.,?]/g, '')`: drop every dot, comma and question
mark. -/
def stripPunct (s : String) : String :=
  ⟨s.toList.filter (fun c => !(c == '.' || c == ',' || c == '?'))⟩

/-- Model of the hyphen-to-space replacement applied to surah keys
(a global regex replace of hyphen by space). -/
def hyphenToSpace (s : String) : String :=
  ⟨s.toList.map (fun c => if c = '-' then ' ' else c)⟩

/-- JavaScript `Math.round` on a non-negative rational: floor of `q + 1/2`
(ties round up), which matches `Math.round` wherever the involved floating
point values are exact. -/
def mathRound (q : ℚ) : ℤ := ⌊q + 1/2⌋

namespace Quiz

/-! ## Quiz screen (`components/QuizScreen.tsx`, given as `unnamed/part_000`) -/

/-- `QuizQuestion` from `types.ts`. -/
structure QuizQuestion where
  question : String
  options : List String
  correctAnswer : Nat
deriving DecidableEq

/-- The `status` state variable: `'idle' | 'listening' | 'speaking'`. -/
inductive QStatus
  | idle
  | listening
  | speaking
deriving DecidableEq

/-- The `gameState` state variable: `'playing' | 'finished'`. -/
inductive GState
  | playing
  | finished
deriving DecidableEq

/-- The argument of `playFeedbackAudio`. -/
inductive FeedbackType
  | correct
  | incorrect
  | finalIncorrect
deriving DecidableEq

/-- Which utterance is currently loaded in the audio element, i.e. which
`onended` closure is attached.  Each constructor corresponds to one of the
TTS playback routines of the source. -/
inductive SpeakKind
  | question
  | feedback (t : FeedbackType)
  | recogFailMsg
  | invalidMsg
  | scorecard
deriving DecidableEq

/-- The action a pending `timeoutRef` timer will perform when it fires. -/
inductive TimerAction
  | proceed
  | listen
deriving DecidableEq

/-- State of the quiz screen: the React `useState` variables together with
the refs and browser-side facts the handlers observe (whether the
recognizer session is active, which audio is playing, which timers are
pending).  `attemptsLeft` is an integer because the source decrements a
JavaScript number without a lower bound. -/
structure QuizState where
  gameState : GState
  sessionQuestions : List QuizQuestion
  currentQuestionIndex : Nat
  selectedAnswer : Option Nat
  isCorrect : Option Bool
  score : Nat
  attemptsLeft : Int
  isScored : Bool
  status : QStatus
  transcript : String
  recognizerActive : Bool
  speaking : Option SpeakKind
  pendingTimer : Option TimerAction
  looseListenTimer : Bool
  resultProcessed : Bool
deriving DecidableEq

/-- The state at mount, before `startNewQuiz` runs. -/
def qInit : QuizState :=
  { gameState := .playing
    sessionQuestions := []
    currentQuestionIndex := 0
    selectedAnswer := none
    isCorrect := none
    score := 0
    attemptsLeft := 3
    isScored := false
    status := .idle
    transcript := ""
    recognizerActive := false
    speaking := none
    pendingTimer := none
    looseListenTimer := false
    resultProcessed := false }

/-- `stopAllActivity`: clears the `timeoutRef` timer, aborts the recognizer,
pauses the audio element and detaches its handlers, and sets `status` to
`'idle'`. -/
def stopAllActivity (s : QuizState) : QuizState :=
  { s with pendingTimer := none, recognizerActive := false,
           speaking := none, status := .idle }

/-- `startListening`: a no-op unless `status` is `'idle'` and
`selectedAnswer` is `null`; otherwise clears `resultProcessedRef` and the
transcript and starts a recognizer session. -/
def startListening (s : QuizState) : QuizState :=
  if s.status ≠ .idle ∨ s.selectedAnswer ≠ none then s
  else
    { s with resultProcessed := false, transcript := "",
             status := .listening, recognizerActive := true }

/-- `playFeedbackAudio`: `stopAllActivity`, then `setStatus('speaking')`
and play the feedback utterance for `t`. -/
def playFeedbackAudio (t : FeedbackType) (s : QuizState) : QuizState :=
  let s := stopAllActivity s
  { s with status := .speaking, speaking := some (.feedback t) }

/-- `playQuestionAudio`: `stopAllActivity`, then `setStatus('speaking')`
and play the question text. -/
def playQuestionAudio (s : QuizState) : QuizState :=
  let s := stopAllActivity s
  { s with status := .speaking, speaking := some .question }

/-- `playInvalidAnswerFeedback`: `stopAllActivity`, then speak the
how-to-answer prompt. -/
def playInvalidAnswerFeedback (s : QuizState) : QuizState :=
  let s := stopAllActivity s
  { s with status := .speaking, speaking := some .invalidMsg }

/-- The per-question reset performed by the question effect:
`setSelectedAnswer(null); setIsCorrect(null); setTranscript('');
setAttemptsLeft(3); setIsScored(false)`. -/
def resetQuestionState (s : QuizState) : QuizState :=
  { s with selectedAnswer := none, isCorrect := none, transcript := "",
           attemptsLeft := 3, isScored := false }

/-- The React effect keyed on `gameState`/`currentQuestionIndex`/
`questionTrigger`/`sessionQuestions`: when playing and a current question
exists, reset the per-question state and play the question audio. -/
def questionEffect (s : QuizState) : QuizState :=
  if s.gameState = .playing ∧ (s.sessionQuestions[s.currentQuestionIndex]?).isSome
  then playQuestionAudio (resetQuestionState s)
  else s

/-- The scorecard effect: when `gameState` is `'finished'` and there are
session questions, stop everything and speak the score percentage. -/
def scorecardEffect (s : QuizState) : QuizState :=
  if s.gameState = .finished ∧ 0 < s.sessionQuestions.length then
    let s := stopAllActivity s
    { s with status := .speaking, speaking := some .scorecard }
  else s

/-- `proceedToNext`: stop all activity and either advance to the next
question (running the question effect the index change triggers) or finish
the game (running the scorecard effect). -/
def proceedToNext (s : QuizState) : QuizState :=
  let s := stopAllActivity s
  if s.currentQuestionIndex < s.sessionQuestions.length - 1 then
    questionEffect { s with currentQuestionIndex := s.currentQuestionIndex + 1 }
  else
    scorecardEffect { s with gameState := .finished }

/-- `handleSelectAnswer`: ignore when an answer is already selected,
otherwise stop activity, record the selection, score a first correct answer
(guarded by `isScored`), decrement `attemptsLeft` on a wrong one, and play
the matching feedback.  The `none` branch of the lookup models the
source's assumption that a current question exists (all callers check). -/
def handleSelectAnswer (i : Nat) (s : QuizState) : QuizState :=
  if s.selectedAnswer ≠ none then s
  else
    match s.sessionQuestions[s.currentQuestionIndex]? with
    | none => s
    | some q =>
      let s := stopAllActivity s
      let s := { s with selectedAnswer := some i }
      if i = q.correctAnswer then
        let s := { s with isCorrect := some true }
        let s := if ¬s.isScored then { s with score := s.score + 1, isScored := true } else s
        playFeedbackAudio .correct s
      else
        let s := { s with isCorrect := some false, attemptsLeft := s.attemptsLeft - 1 }
        if 0 < s.attemptsLeft then playFeedbackAudio .incorrect s
        else playFeedbackAudio .finalIncorrect s

/-- `handleRecognitionFailure`: ignore when an answer is selected,
otherwise stop activity, consume an attempt, and either speak the apology
(attempts remain) or play the final-incorrect feedback. -/
def handleRecognitionFailure (s : QuizState) : QuizState :=
  if s.selectedAnswer ≠ none then s
  else
    let s := stopAllActivity s
    let s := { s with attemptsLeft := s.attemptsLeft - 1 }
    if 0 < s.attemptsLeft then
      { s with status := .speaking, speaking := some .recogFailMsg }
    else playFeedbackAudio .finalIncorrect s

/-- `startNewQuiz`: stop activity, install `min 5` shuffled questions,
reset index and score, set `gameState` to playing; the question effect the
state change triggers then runs. -/
def startNewQuiz (shuffled : List QuizQuestion) (s : QuizState) : QuizState :=
  let s := stopAllActivity s
  let s := { s with sessionQuestions := shuffled.take 5,
                    currentQuestionIndex := 0, score := 0,
                    gameState := .playing }
  questionEffect s

/-- The bare-word test of `onresult`: the transcript, trimmed and with
punctuation stripped, is exactly `option` (after lowercasing) or exactly
the Tamil `ஆப்ஷன்`. -/
def bareOptionWord (t : String) : Prop :=
  jsToLower (stripPunct (jsTrim t)) = "option" ∨ stripPunct (jsTrim t) = "ஆப்ஷன்"

instance (t : String) : Decidable (bareOptionWord t) := by
  unfold bareOptionWord
  exact inferInstance

/-- `hasOne` of `onresult`: the cleaned transcript contains `one`
(checked on the lowercased form), the Tamil word for one, or the digit
`1`. -/
def saysOne (t : String) : Bool :=
  jsIncludes (jsToLower (stripPunct (jsTrim t))) "one"
  || jsIncludes (stripPunct (jsTrim t)) "ஒன்று"
  || jsIncludes (stripPunct (jsTrim t)) "1"

/-- `hasTwo` of `onresult`. -/
def saysTwo (t : String) : Bool :=
  jsIncludes (jsToLower (stripPunct (jsTrim t))) "two"
  || jsIncludes (stripPunct (jsTrim t)) "இரண்டு"
  || jsIncludes (stripPunct (jsTrim t)) "2"

/-- `hasThree` of `onresult`. -/
def saysThree (t : String) : Bool :=
  jsIncludes (jsToLower (stripPunct (jsTrim t))) "three"
  || jsIncludes (stripPunct (jsTrim t)) "மூன்று"
  || jsIncludes (stripPunct (jsTrim t)) "3"

/-- `hasFour` of `onresult`. -/
def saysFour (t : String) : Bool :=
  jsIncludes (jsToLower (stripPunct (jsTrim t))) "four"
  || jsIncludes (stripPunct (jsTrim t)) "நான்கு"
  || jsIncludes (stripPunct (jsTrim t)) "4"

/-- The recognizer's `onresult` handler: record the transcript; an exact
`option`/`ஆப்ஷன்` counts as a recognition failure; otherwise the first
of one/two/three/four (English word, Tamil word or digit) that the
cleaned transcript contains selects that option, and a transcript matching
none of them triggers the invalid-answer prompt. -/
def quizOnResult (t : String) (s : QuizState) : QuizState :=
  if s.selectedAnswer ≠ none then s
  else
    let s := { s with resultProcessed := true,
                      transcript := "நீங்கள் கூறியது: " ++ t }
    if bareOptionWord t then handleRecognitionFailure s
    else
      match s.sessionQuestions[s.currentQuestionIndex]? with
      | none => s
      | some _ =>
        if saysOne t then handleSelectAnswer 0 s
        else if saysTwo t then handleSelectAnswer 1 s
        else if saysThree t then handleSelectAnswer 2 s
        else if saysFour t then handleSelectAnswer 3 s
        else playInvalidAnswerFeedback s

/-- The recognizer's `onend` handler: the session is over; when `status`
is `'listening'`, route to `handleRecognitionFailure` if no result was
processed and back to `'idle'` otherwise. -/
def quizOnEnd (s : QuizState) : QuizState :=
  let s := { s with recognizerActive := false }
  if s.status = .listening then
    if s.resultProcessed then { s with status := .idle }
    else handleRecognitionFailure s
  else s

/-- The recognizer's `onerror` handler: logs and changes no state. -/
def quizOnError (s : QuizState) : QuizState := s

/-- The audio element's `ended` event: run the `onended` closure attached
by whichever playback routine loaded the audio. -/
def quizAudioEnd (s : QuizState) : QuizState :=
  match s.speaking with
  | none => s
  | some k =>
    let s := { s with speaking := none }
    match k with
    | .question => { s with status := .idle, looseListenTimer := true }
    | .feedback .correct => { s with pendingTimer := some .proceed }
    | .feedback .incorrect =>
        { s with selectedAnswer := none, isCorrect := none,
                 status := .idle, pendingTimer := some .listen }
    | .feedback .finalIncorrect => { s with pendingTimer := some .proceed }
    | .recogFailMsg => { s with status := .idle, pendingTimer := some .listen }
    | .invalidMsg => { s with status := .idle, pendingTimer := some .listen }
    | .scorecard => { s with status := .idle }

/-- A pending `timeoutRef` timer fires. -/
def quizTimerFire (s : QuizState) : QuizState :=
  match s.pendingTimer with
  | none => s
  | some a =>
    let s := { s with pendingTimer := none }
    match a with
    | .proceed => proceedToNext s
    | .listen => startListening s

/-- The raw `setTimeout` scheduled by the question audio's `onended`
(not tracked by `timeoutRef`, hence not cleared by `stopAllActivity`)
fires and calls `startListening`. -/
def quizLooseTimerFire (s : QuizState) : QuizState :=
  if s.looseListenTimer then startListening { s with looseListenTimer := false } else s

/-- The observable events of the quiz screen. -/
inductive QEvent
  | startQuiz (shuffled : List QuizQuestion)
  | micClick
  | clickAnswer (i : Nat)
  | recResult (t : String)
  | recEnd
  | recError
  | audioEnd
  | timerFire
  | looseTimerFire

/-- One step of the quiz screen. -/
def stepQuiz : QEvent → QuizState → QuizState
  | .startQuiz l, s => startNewQuiz l s
  | .micClick, s => startListening s
  | .clickAnswer i, s => handleSelectAnswer i s
  | .recResult t, s => quizOnResult t s
  | .recEnd, s => quizOnEnd s
  | .recError, s => quizOnError s
  | .audioEnd, s => quizAudioEnd s
  | .timerFire, s => quizTimerFire s
  | .looseTimerFire, s => quizLooseTimerFire s

/-- Side condition on events: a new quiz installs a shuffle, i.e. a
permutation, of the static question bank; every other event is
unconstrained. -/
def evValid (bank : List QuizQuestion) : QEvent → Prop
  | .startQuiz l => l.Perm bank
  | _ => True

/-- States of the quiz screen reachable from mount by valid events. -/
inductive QReachable (bank : List QuizQuestion) : QuizState → Prop
  | init : QReachable bank qInit
  | step {s : QuizState} (e : QEvent) :
      QReachable bank s → evValid bank e → QReachable bank (stepQuiz e s)

end Quiz

namespace SApp

/-! ## Main screens (`App.tsx`) -/

/-- The screen names `setCurrentScreen` is called with. -/
inductive Screen
  | initial
  | welcome
  | landing
  | surah
  | quizRules
  | quiz
  | duaList
  | duaPlayer
deriving DecidableEq

/-- `Dua` from `types.ts`. -/
structure Dua where
  name : String
  arabic : String
  translationTamil : String
  keywords : List String
deriving DecidableEq

/-- `Surah` from `types.ts`. -/
structure Surah where
  name : String
  number : Nat
  audio : String
deriving DecidableEq

/-- What the audio element's `src` is set to: nothing yet, a plain URL
(surah recordings), or the Google translate TTS URL built from a text and
a language (the `encodeURIComponent` wrapping is kept abstract: `tts`
pairs the raw text with the language). -/
inductive AudioSrc
  | empty
  | url (u : String)
  | tts (text : String) (lang : String)
deriving DecidableEq

/-- State of the `App` component: its `useState` variables plus the refs
and audio-element facts the handlers observe.  `landingOnEnded` models the
`audio.onended` property: `some b` is the landing-screen retry closure
with captured `shouldListenAgain = b`, `none` is `null`.  The recognizer
language assignment and the delayed now-playing message of `playSurah`
are UI detail not modelled. -/
structure AppState where
  currentScreen : Screen
  isListening : Bool
  transcription : String
  isPlaying : Bool
  currentSurah : String
  message : String
  currentDua : Option Dua
  duaMessage : String
  failedRecognitionAttempts : Nat
  playbackTimer : Bool
  audioSrc : AudioSrc
  audioPaused : Bool
  audioCurrentTime : ℚ
  landingOnEnded : Option Bool
  audioOnErrorAttached : Bool
  synthPending : Bool
  postRecitationActionInProgress : Bool
  isWelcomeSequencePlaying : Bool
  recognizerActive : Bool
deriving DecidableEq

/-- The listening prompt shown while the recognizer runs. -/
def listeningMsg : String := "கேட்கிறது..."

/-- The surah not-found message. -/
def surahNotFoundMsg : String :=
  "மன்னிக்கவும், அந்த சூராவை கண்டுபிடிக்க முடியவில்லை. மீண்டும் முயற்சிக்கவும்."

/-- The dua not-found message. -/
def duaNotFoundMsg : String :=
  "மன்னிக்கவும், அந்த துவாவைக் கண்டுபிடிக்க முடியவில்லை. மீண்டும் முயற்சிக்கவும்."

/-- The message shown after a manual stop on the surah screen. -/
def stoppedMsg : String :=
  "ஓதுதல் நிறுத்தப்பட்டது. மீண்டும் கேட்க, மைக்ரோஃபோனை அழுத்தவும்."

/-- The post-recitation prompt spoken after a surah finishes. -/
def postRecitationMsg : String :=
  "ஓதுதல் முடிந்தது. அடுத்த சூராவின் பெயரைச் சொல்லுங்கள்."

/-- The first-failures apology on the landing screen. -/
def apologyMsg : String :=
  "மன்னிக்கவும், எனக்குப் புரியவில்லை. மீண்டும் முயற்சிக்கவும்."

/-- The give-up message directing the user to the on-screen buttons. -/
def useButtonsMsg : String :=
  "மன்னிக்கவும், உங்கள் குரலை என்னால் கண்டறிய முடியவில்லை. திரையில் உள்ள பொத்தான்களைப் பயன்படுத்தவும்."

/-- The now-reciting message set by `playSurah`. -/
def playingMsg (name : String) : String := "ஓதப்படுகிறது: சூரா " ++ name ++ "..."

/-- `stopListening`: `recognition.stop()`; the recognizer's `onend`
handler then runs `setIsListening(false)`. -/
def stopListening (s : AppState) : AppState :=
  { s with recognizerActive := false, isListening := false }

/-- `stopPlayback`: clear the playback timer, pause and rewind the audio
element, detach its `onended`/`onerror` handlers, cancel speech synthesis,
set `isPlaying` to false; with `clearState`, clear `currentDua` unless on
the dua player and `currentSurah` unless on the surah screen. -/
def stopPlayback (clearState : Bool) (s : AppState) : AppState :=
  let s := { s with playbackTimer := false,
                    audioPaused := true, audioCurrentTime := 0,
                    landingOnEnded := none, audioOnErrorAttached := false,
                    synthPending := false, isPlaying := false }
  if clearState then
    let s := if s.currentScreen ≠ .duaPlayer then { s with currentDua := none } else s
    if s.currentScreen ≠ .surah then { s with currentSurah := "" } else s
  else s

/-- `startListening`: unless forced, bail out while audio is playing
outside the welcome sequence; otherwise clear the transcription, show a
listening prompt on the appropriate screen, and start the recognizer. -/
def startListening (force : Bool) (s : AppState) : AppState :=
  if !force && !s.audioPaused && !s.isWelcomeSequencePlaying then s
  else
    let s := { s with transcription := "" }
    let s :=
      if s.currentScreen = .duaList then { s with duaMessage := listeningMsg }
      else if s.currentScreen ≠ .welcome ∧ s.currentScreen ≠ .landing then
        { s with message := listeningMsg }
      else s
    { s with isListening := true, recognizerActive := true }

/-- `goBackToDuaList`: stop playback and listening, clear the dua and
return to the dua list. -/
def goBackToDuaList (s : AppState) : AppState :=
  let s := stopPlayback true s
  let s := stopListening s
  { s with currentDua := none, currentScreen := .duaList,
           transcription := "", duaMessage := "" }

/-- `handlePlaybackEnd`: the completion handler for every utterance.  A
completion during the post-recitation prompt starts listening; a manual
stop shows the stopped message (surah) or returns to the dua list
(dua player); a natural end of a surah plays the post-recitation prompt,
and a natural end of a dua returns to the dua list. -/
def handlePlaybackEnd (isManualStop : Bool) (s : AppState) : AppState :=
  if s.postRecitationActionInProgress then
    startListening true { s with postRecitationActionInProgress := false }
  else if s.isWelcomeSequencePlaying then s
  else if isManualStop then
    let s1 := stopPlayback true s
    let s2 :=
      if s1.currentScreen = .surah then { s1 with message := stoppedMsg }
      else if s1.currentScreen = .duaPlayer then goBackToDuaList s1
      else s1
    { s2 with transcription := "" }
  else if s.currentScreen = .surah ∧ s.currentSurah ≠ "" then
    let s1 := stopPlayback true s
    { s1 with postRecitationActionInProgress := true,
              message := postRecitationMsg,
              audioSrc := .tts postRecitationMsg "ta",
              audioPaused := false }
  else if s.currentScreen = .duaPlayer ∧ s.currentDua.isSome then
    goBackToDuaList (stopPlayback true s)
  else s

/-- Key lookup in `surahDatabase`, modelled as an association list in
object-key order. -/
def lookupSurah (db : List (String × Surah)) (k : String) : Option Surah :=
  (db.find? (fun p => p.1 == k)).map Prod.snd

/-- Stable insertion of a key into a list sorted by descending length:
the key goes before the first strictly shorter key. -/
def insertLenDesc (k : String) : List String → List String
  | [] => [k]
  | x :: xs => if x.length ≤ k.length then k :: x :: xs else x :: insertLenDesc k xs

/-- Model of `Object.keys(surahDatabase).sort((a, b) => b.length - a.length)`:
a stable sort of the keys by descending length (JavaScript array sort is
stable), written as an insertion sort. -/
def sortByLenDesc : List String → List String
  | [] => []
  | x :: xs => insertLenDesc x (sortByLenDesc xs)

/-- The database keys in the order the voice scan tries them. -/
def sortedSurahKeys (db : List (String × Surah)) : List String :=
  sortByLenDesc (db.map Prod.fst)

/-- A key matches a voice command when it occurs in the lowercased command
as-is or with hyphens replaced by spaces. -/
def surahKeyMatches (command key : String) : Bool :=
  jsIncludes (jsToLower command) key || jsIncludes (jsToLower command) (hyphenToSpace key)

/-- `playSurah`: look the key up; on success stop playback, record the
surah and message and start its recording (and the 60s playback timer);
otherwise show the not-found message. -/
def playSurah (db : List (String × Surah)) (key : String) (s : AppState) : AppState :=
  match lookupSurah db key with
  | some su =>
    let s := stopPlayback true s
    let s := { s with currentSurah := su.name }
    let s := { s with message := playingMsg su.name }
    { s with audioSrc := .url su.audio, audioPaused := false, playbackTimer := true }
  | none => { s with message := surahNotFoundMsg }

/-- `handleVoiceCommand` (surah screen): ignore an empty command; try the
length-sorted keys in order and play the first match, otherwise show the
not-found message. -/
def handleVoiceCommand (db : List (String × Surah)) (command : String) (s : AppState) : AppState :=
  if command = "" then s
  else
    match (sortedSurahKeys db).find? (surahKeyMatches command) with
    | some key => playSurah db key s
    | none => { s with message := surahNotFoundMsg }

/-- The keyword test of `handleDuaRequest`: some keyword of the dua is a
substring of the lowercased transcript (keyword also lowercased). -/
def duaMatches (transcript : String) (dua : Dua) : Bool :=
  dua.keywords.any (fun kw => jsIncludes (jsToLower transcript) (jsToLower kw))

/-- `handleDuaRequest` (dua list screen): select and play the first dua a
keyword of which occurs in the transcript (`selectDuaAndPlay` sets the dua
and moves to the player screen, whose effect starts playback); otherwise
show the not-found message. -/
def handleDuaRequest (duaDB : List Dua) (transcript : String) (s : AppState) : AppState :=
  match duaDB.find? (duaMatches transcript) with
  | some dua => { s with currentDua := some dua, currentScreen := .duaPlayer }
  | none => { s with duaMessage := duaNotFoundMsg }

/-- The landing-screen keyword lists. -/
def surahKeywords : List String := ["சூரா", "சுரா", "surah"]

/-- Quiz keywords. -/
def quizKeywords : List String := ["வினாடி வினா", "quiz", "vinadi vina"]

/-- Dua keywords. -/
def duaKeywords : List String := ["துஆ", "துவா", "dua"]

/-- The `navigate` closure of `handleLandingCommand`: reset the failure
counter and switch screens. -/
def navigate (screen : Screen) (s : AppState) : AppState :=
  { s with failedRecognitionAttempts := 0, currentScreen := screen }

/-- The cleaned landing command: lowercase, strip `.`/`,`/`?`, trim. -/
def cleanLandingCommand (command : String) : String :=
  jsTrim (stripPunct (jsToLower command))

/-- `handleLandingCommand`: check surah, then quiz, then dua keywords
against the cleaned command and navigate on the first hit; otherwise bump
the failure counter, stop listening, and play either the apology (fewer
than three failures, then listen again when the audio ends) or the
use-the-buttons message (no further retry). -/
def handleLandingCommand (command : String) (s : AppState) : AppState :=
  let lowerCommand := cleanLandingCommand command
  if surahKeywords.any (fun k => jsIncludes lowerCommand k) then navigate .surah s
  else if quizKeywords.any (fun k => jsIncludes lowerCommand k) then navigate .quizRules s
  else if duaKeywords.any (fun k => jsIncludes lowerCommand k) then navigate .duaList s
  else
    let n := s.failedRecognitionAttempts + 1
    let s := { s with failedRecognitionAttempts := n }
    let s := stopListening s
    let shouldListenAgain := n < 3
    let errorMsg := if n < 3 then apologyMsg else useButtonsMsg
    { s with audioSrc := .tts errorMsg "ta", audioPaused := false,
             landingOnEnded := some shouldListenAgain }

/-- The audio element's `ended` event: the element reports paused, the
always-attached JSX handler runs `handlePlaybackEnd(false)`, and the
`onended` property closure (the landing retry), when assigned, runs too. -/
def appAudioEnded (s : AppState) : AppState :=
  let s := { s with audioPaused := true }
  let s1 := handlePlaybackEnd false s
  match s1.landingOnEnded with
  | some b => if b then startListening false s1 else s1
  | none => s1

/-- No landing keyword of any of the three lists occurs in the cleaned
command. -/
def noLandingKeyword (command : String) : Prop :=
  surahKeywords.any (fun k => jsIncludes (cleanLandingCommand command) k) = false
  ∧ quizKeywords.any (fun k => jsIncludes (cleanLandingCommand command) k) = false
  ∧ duaKeywords.any (fun k => jsIncludes (cleanLandingCommand command) k) = false

end SApp

namespace Tts

/-! ## Serverless TTS proxy (`tts.js`) -/

/-- The query parameters of a request: each may be absent. -/
structure TTSRequest where
  text : Option String
  lang : Option String
deriving DecidableEq

/-- The outcome of the upstream `fetch`: a response with an HTTP status
and body bytes, or a thrown error. -/
inductive UpstreamResult
  | ok (status : Nat) (body : List Nat)
  | thrown
deriving DecidableEq

/-- The body of the proxy's response: an error text or the forwarded
audio bytes. -/
inductive RespBody
  | msg (s : String)
  | audio (b : List Nat)
deriving DecidableEq

/-- The proxy's response: status, the headers it sets, and the body. -/
structure TTSResponse where
  status : Nat
  contentType : Option String
  contentLength : Option Nat
  body : RespBody
deriving DecidableEq

/-- The upstream URL (`encodeURIComponent` kept abstract as identity). -/
def googleTTSUrl (text lang : String) : String :=
  "https://translate.google.com/translate_tts?ie=UTF-8&q=" ++ text
    ++ "&tl=" ++ lang ++ "&client=tw-ob"

/-- `Response.ok`: status in the 200-299 range. -/
def responseOk (status : Nat) : Bool := 200 ≤ status && status < 300

/-- The 400 validation response (`!text` is true for an absent or empty
parameter). -/
def badRequestResponse : TTSResponse :=
  ⟨400, none, none, .msg "Text query parameter is required"⟩

/-- The handler of `tts.js` as a pure function of the request and the
upstream fetch behaviour: 400 when `text` is absent or empty, 500 when the
fetch throws, the upstream status forwarded when it is not ok, and
otherwise the audio bytes with `audio/mpeg` and their length; `lang`
defaults to `ta`. -/
def ttsHandler (fetch : String → UpstreamResult) (req : TTSRequest) : TTSResponse :=
  let lang := req.lang.getD "ta"
  match req.text with
  | none => badRequestResponse
  | some t =>
    if t = "" then badRequestResponse
    else
      match fetch (googleTTSUrl t lang) with
      | .thrown => ⟨500, none, none, .msg "Internal Server Error"⟩
      | .ok st body =>
        if !responseOk st then ⟨st, none, none, .msg "Failed to fetch TTS from Google"⟩
        else ⟨200, some "audio/mpeg", some body.length, .audio body⟩

/-- Serving a sequence of requests: the function shares no state between
invocations, so it is the pointwise map of the handler. -/
def ttsServe (fetch : String → UpstreamResult) (reqs : List TTSRequest) : List TTSResponse :=
  reqs.map (ttsHandler fetch)

/-- A concrete upstream that always succeeds, for instantiations. -/
def alwaysOkFetch : String → UpstreamResult := fun _ => .ok 200 [7, 7, 7]

end Tts

/-! ## Invariants and concrete instances -/

namespace Quiz

/-- The mutual-exclusion invariant of the quiz screen: the recognizer is
never active while an utterance is being spoken. -/
def C1Inv (s : QuizState) : Prop :=
  s.recognizerActive = true → s.status ≠ .speaking

/-- The scoring-related fields of the quiz state. -/
def qcore (s : QuizState) : Nat × Nat × Bool × List QuizQuestion × GState :=
  (s.score, s.currentQuestionIndex, s.isScored, s.sessionQuestions, s.gameState)

/-- The inductive scoring invariant: the score counts at most one point
per question seen so far, the session is empty or holds `min 5` bank
questions, an empty session pins the counters, the index stays in bounds,
and a finished game is past the last question. -/
def QInv (bank : List QuizQuestion) (s : QuizState) : Prop :=
  s.score ≤ s.currentQuestionIndex + (if s.isScored then 1 else 0)
  ∧ (s.sessionQuestions.length = 0 ∨ s.sessionQuestions.length = min 5 bank.length)
  ∧ (s.sessionQuestions.length = 0 →
      s.currentQuestionIndex = 0 ∧ s.score = 0 ∧ s.isScored = false)
  ∧ (0 < s.sessionQuestions.length →
      s.currentQuestionIndex < s.sessionQuestions.length)
  ∧ (s.gameState = .finished →
      ¬(s.currentQuestionIndex < s.sessionQuestions.length - 1))

/-- The percentage shown and spoken by the scorecard
(`Math.round((score / sessionQuestions.length) * 100)`, and `0` while no
questions are loaded). -/
def scorecardPercent (s : QuizState) : ℤ :=
  if s.sessionQuestions.length = 0 then 0
  else mathRound ((s.score : ℚ) / (s.sessionQuestions.length : ℚ) * 100)

/-- A concrete quiz question for instantiations. -/
def exQ : QuizQuestion :=
  ⟨"கேள்வி ஒன்று?", ["விடை ஒன்று", "விடை இரண்டு", "விடை மூன்று", "விடை நான்கு"], 1⟩

/-- A concrete quiz state in the middle of a listening session. -/
def exListening : QuizState :=
  { qInit with sessionQuestions := [exQ], status := .listening,
               recognizerActive := true, resultProcessed := false }

end Quiz

namespace SApp

/-- A concrete idle landing-screen state for instantiations. -/
def exLanding : AppState :=
  { currentScreen := .landing
    isListening := true
    transcription := ""
    isPlaying := false
    currentSurah := ""
    message := ""
    currentDua := none
    duaMessage := ""
    failedRecognitionAttempts := 0
    playbackTimer := false
    audioSrc := .empty
    audioPaused := true
    audioCurrentTime := 0
    landingOnEnded := none
    audioOnErrorAttached := false
    synthPending := false
    postRecitationActionInProgress := false
    isWelcomeSequencePlaying := false
    recognizerActive := true }

/-- A concrete surah record. -/
def exSurahRec : Surah := ⟨"அல்-ஃபாத்திஹா", 1, "/audio/001.mp3"⟩

/-- A concrete one-entry surah database. -/
def exDB : List (String × Surah) := [("al-fatiha", exSurahRec)]

/-- A concrete surah-screen state with a surah playing. -/
def exSurahScreen : AppState :=
  { exLanding with currentScreen := .surah, currentSurah := exSurahRec.name,
                   isPlaying := true, audioPaused := false,
                   audioSrc := .url exSurahRec.audio, isListening := false,
                   recognizerActive := false }

end SApp

/-! ## Claims -/

/-- C7: `stopPlayback` always performs cleanup regardless of how playback
was interrupted: it clears any pending playback timer, pauses the audio
element and rewinds it to time 0, detaches its onended/onerror handlers,
cancels speech synthesis, and sets `isPlaying` to false; with `clearState`
true, `currentDua` is cleared unless the screen is the dua player and
`currentSurah` is cleared unless the screen is the surah screen; with
`clearState` false both are left unchanged. -/
theorem stopPlayback_cleanup (b : Bool) (s : SApp.AppState) :
    (SApp.stopPlayback b s).playbackTimer = false
    ∧ (SApp.stopPlayback b s).audioPaused = true
    ∧ (SApp.stopPlayback b s).audioCurrentTime = 0
    ∧ (SApp.stopPlayback b s).landingOnEnded = none
    ∧ (SApp.stopPlayback b s).audioOnErrorAttached = false
    ∧ (SApp.stopPlayback b s).synthPending = false
    ∧ (SApp.stopPlayback b s).isPlaying = false
    ∧ (b = true →
        (SApp.stopPlayback b s).currentDua
          = (if s.currentScreen = .duaPlayer then s.currentDua else none)
        ∧ (SApp.stopPlayback b s).currentSurah
          = (if s.currentScreen = .surah then s.currentSurah else ""))
    ∧ (b = false →
        (SApp.stopPlayback b s).currentDua = s.currentDua
        ∧ (SApp.stopPlayback b s).currentSurah = s.currentSurah) := by
  cases b <;>
    by_cases h1 : s.currentScreen = SApp.Screen.duaPlayer <;>
      by_cases h2 : s.currentScreen = SApp.Screen.surah <;>
        simp [SApp.stopPlayback, h1, h2]

/-- Witness for C7 at a concrete state. -/
theorem stopPlayback_cleanup_witness :
    (SApp.stopPlayback true SApp.exLanding).playbackTimer = false
    ∧ (SApp.stopPlayback true SApp.exLanding).audioPaused = true
    ∧ (SApp.stopPlayback true SApp.exLanding).audioCurrentTime = 0
    ∧ (SApp.stopPlayback true SApp.exLanding).landingOnEnded = none
    ∧ (SApp.stopPlayback true SApp.exLanding).audioOnErrorAttached = false
    ∧ (SApp.stopPlayback true SApp.exLanding).synthPending = false
    ∧ (SApp.stopPlayback true SApp.exLanding).isPlaying = false
    ∧ (true = true →
        (SApp.stopPlayback true SApp.exLanding).currentDua
          = (if SApp.exLanding.currentScreen = .duaPlayer then SApp.exLanding.currentDua else none)
        ∧ (SApp.stopPlayback true SApp.exLanding).currentSurah
          = (if SApp.exLanding.currentScreen = .surah then SApp.exLanding.currentSurah else ""))
    ∧ (true = false →
        (SApp.stopPlayback true SApp.exLanding).currentDua = SApp.exLanding.currentDua
        ∧ (SApp.stopPlayback true SApp.exLanding).currentSurah = SApp.exLanding.currentSurah) :=
  stopPlayback_cleanup true SApp.exLanding

/-- C5: a landing-screen voice command, after lowercasing and stripping
punctuation, navigates to the surah screen when it contains a surah
keyword, else to the quiz rules when it contains a quiz keyword, else to
the dua list when it contains a dua keyword, in that priority order, and
every successful navigation resets the failure counter to zero. -/
theorem landing_command_priority (cmd : String) (s : SApp.AppState) :
    (SApp.surahKeywords.any (fun k => jsIncludes (SApp.cleanLandingCommand cmd) k) = true →
      (SApp.handleLandingCommand cmd s).currentScreen = .surah
      ∧ (SApp.handleLandingCommand cmd s).failedRecognitionAttempts = 0)
    ∧ (SApp.surahKeywords.any (fun k => jsIncludes (SApp.cleanLandingCommand cmd) k) = false →
       SApp.quizKeywords.any (fun k => jsIncludes (SApp.cleanLandingCommand cmd) k) = true →
      (SApp.handleLandingCommand cmd s).currentScreen = .quizRules
      ∧ (SApp.handleLandingCommand cmd s).failedRecognitionAttempts = 0)
    ∧ (SApp.surahKeywords.any (fun k => jsIncludes (SApp.cleanLandingCommand cmd) k) = false →
       SApp.quizKeywords.any (fun k => jsIncludes (SApp.cleanLandingCommand cmd) k) = false →
       SApp.duaKeywords.any (fun k => jsIncludes (SApp.cleanLandingCommand cmd) k) = true →
      (SApp.handleLandingCommand cmd s).currentScreen = .duaList
      ∧ (SApp.handleLandingCommand cmd s).failedRecognitionAttempts = 0) := by
  refine ⟨fun h1 => ?_, fun h1 h2 => ?_, fun h1 h2 h3 => ?_⟩
  · simp [SApp.handleLandingCommand, SApp.navigate, h1]
  · simp [SApp.handleLandingCommand, SApp.navigate, h1, h2]
  · simp [SApp.handleLandingCommand, SApp.navigate, h1, h2, h3]

/-- Witness for C5 at a concrete quiz command. -/
theorem landing_command_priority_witness :
    (SApp.handleLandingCommand "start the quiz" SApp.exLanding).currentScreen = .quizRules
    ∧ (SApp.handleLandingCommand "start the quiz" SApp.exLanding).failedRecognitionAttempts = 0 :=
  (landing_command_priority "start the quiz" SApp.exLanding).2.1 (by decide) (by decide)

/-- Counterexample for C8: the handler responds 400 although the `text`
query parameter is present — once when it is present but empty (JavaScript
`!text` is true for the empty string), and once by forwarding an upstream
400 status for a perfectly good `text`.  So the claimed
"400 if and only if `text` is absent" is false. -/
theorem tts_400_iff_refuted :
    ((some "" : Option String) ≠ none
      ∧ (Tts.ttsHandler Tts.alwaysOkFetch ⟨some "", none⟩).status = 400)
    ∧ ((some "hello" : Option String) ≠ none
      ∧ (Tts.ttsHandler (fun _ => Tts.UpstreamResult.ok 400 []) ⟨some "hello", none⟩).status = 400) :=
  ⟨⟨by decide, rfl⟩, ⟨by decide, rfl⟩⟩

/-- C8 (amended): the proxy is a stateless passthrough: it responds 400
with the validation message exactly when `text` is absent or empty; with a
usable `text` it fetches the upstream URL built with `lang` defaulting to
`ta`, responds 500 when the fetch throws, forwards a non-ok upstream
status, and otherwise returns the audio bytes with Content-Type
`audio/mpeg` and Content-Length equal to the byte count; the response to a
request does not depend on previously served requests. -/
theorem tts_proxy_passthrough (fetch : String → Tts.UpstreamResult) (req : Tts.TTSRequest) :
    (Tts.ttsHandler fetch req = Tts.badRequestResponse
      ↔ (req.text = none ∨ req.text = some ""))
    ∧ (∀ t, req.text = some t → t ≠ "" →
        fetch (Tts.googleTTSUrl t (req.lang.getD "ta")) = .thrown →
        (Tts.ttsHandler fetch req).status = 500)
    ∧ (∀ t st body, req.text = some t → t ≠ "" →
        fetch (Tts.googleTTSUrl t (req.lang.getD "ta")) = .ok st body →
        (Tts.responseOk st = false →
          Tts.ttsHandler fetch req
            = ⟨st, none, none, .msg "Failed to fetch TTS from Google"⟩)
        ∧ (Tts.responseOk st = true →
          (Tts.ttsHandler fetch req).status = 200
          ∧ (Tts.ttsHandler fetch req).contentType = some "audio/mpeg"
          ∧ (Tts.ttsHandler fetch req).contentLength = some body.length
          ∧ (Tts.ttsHandler fetch req).body = .audio body))
    ∧ (req.lang = none →
        Tts.ttsHandler fetch req = Tts.ttsHandler fetch { req with lang := some "ta" })
    ∧ (∀ rs, (Tts.ttsServe fetch (rs ++ [req])).getLast? = some (Tts.ttsHandler fetch req)) := by
  obtain ⟨text, lang⟩ := req
  refine ⟨?_, ?_, ?_, ?_, ?_⟩
  · cases text with
    | none => simp [Tts.ttsHandler]
    | some t =>
      by_cases ht : t = ""
      · subst ht
        simp [Tts.ttsHandler]
      · simp only [Tts.ttsHandler]
        cases hf : fetch (Tts.googleTTSUrl t (Option.getD lang "ta")) with
        | thrown =>
          constructor
          · intro h
            simp only [ht, if_false, hf] at h
            have hb := congrArg Tts.TTSResponse.body h
            simp only [Tts.badRequestResponse] at hb
            exact absurd hb (by decide)
          · intro h
            rcases h with h | h
            · exact absurd h (by simp)
            · simp at h
              exact absurd h ht
        | ok st body =>
          constructor
          · intro h
            simp only [ht, if_false, hf] at h
            by_cases hok : Tts.responseOk st
            · simp only [hok, Bool.not_true, Bool.false_eq_true, if_false] at h
              have hb := congrArg Tts.TTSResponse.body h
              simp only [Tts.badRequestResponse] at hb
              exact absurd hb (by simp)
            · simp only [Bool.not_eq_true] at hok
              simp only [hok, Bool.not_false, if_true] at h
              have hb := congrArg Tts.TTSResponse.body h
              simp only [Tts.badRequestResponse] at hb
              exact absurd hb (by decide)
          · intro h
            rcases h with h | h
            · exact absurd h (by simp)
            · simp at h
              exact absurd h ht
  · intro t hx ht hf
    have hx2 : text = some t := hx
    subst hx2
    simp [Tts.ttsHandler, ht, hf]
  · intro t st body hx ht hf
    have hx2 : text = some t := hx
    subst hx2
    constructor
    · intro hok
      simp [Tts.ttsHandler, ht, hf, hok]
    · intro hok
      simp [Tts.ttsHandler, ht, hf, hok]
  · intro h
    have h2 : lang = none := h
    subst h2
    rfl
  · intro rs
    simp [Tts.ttsServe, List.getLast?_concat]

/-- Witness for C8 at a concrete request and upstream. -/
theorem tts_proxy_passthrough_witness :
    (Tts.ttsHandler Tts.alwaysOkFetch ⟨some "வணக்கம்", none⟩).status = 200
    ∧ (Tts.ttsHandler Tts.alwaysOkFetch ⟨some "வணக்கம்", none⟩).contentType = some "audio/mpeg"
    ∧ (Tts.ttsHandler Tts.alwaysOkFetch ⟨some "வணக்கம்", none⟩).contentLength = some 3
    ∧ (Tts.ttsHandler Tts.alwaysOkFetch ⟨some "வணக்கம்", none⟩).body = .audio [7, 7, 7] :=
  ((tts_proxy_passthrough Tts.alwaysOkFetch ⟨some "வணக்கம்", none⟩).2.2.1
    "வணக்கம்" 200 [7, 7, 7] rfl (by decide) rfl).2 (by decide)

/-- One failed recognition round on the landing screen: the counter is
bumped, the apology or give-up message is played according to whether the
new count is below three, and when the audio ends the app listens again
exactly when the count stayed below three. -/
theorem landing_failure_round (c : String) (s : SApp.AppState)
    (hn : SApp.noLandingKeyword c) (hsc : s.currentScreen = .landing)
    (hp : s.postRecitationActionInProgress = false)
    (hw : s.isWelcomeSequencePlaying = false) :
    (SApp.handleLandingCommand c s).failedRecognitionAttempts
      = s.failedRecognitionAttempts + 1
    ∧ (SApp.handleLandingCommand c s).audioSrc
      = .tts (if s.failedRecognitionAttempts + 1 < 3 then SApp.apologyMsg
              else SApp.useButtonsMsg) "ta"
    ∧ (SApp.handleLandingCommand c s).landingOnEnded
      = some (decide (s.failedRecognitionAttempts + 1 < 3))
    ∧ (SApp.appAudioEnded (SApp.handleLandingCommand c s)).isListening
      = decide (s.failedRecognitionAttempts + 1 < 3)
    ∧ (SApp.appAudioEnded (SApp.handleLandingCommand c s)).currentScreen = .landing
    ∧ (SApp.appAudioEnded (SApp.handleLandingCommand c s)).postRecitationActionInProgress = false
    ∧ (SApp.appAudioEnded (SApp.handleLandingCommand c s)).isWelcomeSequencePlaying = false
    ∧ (SApp.appAudioEnded (SApp.handleLandingCommand c s)).failedRecognitionAttempts
      = s.failedRecognitionAttempts + 1 := by
  obtain ⟨a, b, d⟩ := hn
  by_cases h3 : s.failedRecognitionAttempts + 1 < 3 <;>
    simp [SApp.handleLandingCommand, SApp.appAudioEnded, SApp.handlePlaybackEnd,
          SApp.startListening, SApp.stopListening, a, b, d, hsc, hp, hw, h3]

/-- Counterexample for C2: starting from a fresh landing screen, after a
second consecutive unrecognized command the app still schedules a retry
(`landingOnEnded = some true`) and listens again when the apology audio
ends — it does not stop after the second failure. -/
theorem landing_single_retry_refuted :
    (SApp.handleLandingCommand "hello"
        (SApp.appAudioEnded (SApp.handleLandingCommand "hello" SApp.exLanding))).landingOnEnded
      = some true
    ∧ (SApp.appAudioEnded (SApp.handleLandingCommand "hello"
        (SApp.appAudioEnded (SApp.handleLandingCommand "hello" SApp.exLanding)))).isListening
      = true :=
  ⟨rfl, rfl⟩

/-- C2 (amended): recognition-failure handling on the landing screen is a
bounded retry: after the first and the second consecutive unrecognized
voice commands the app plays an apology message and listens again, and
after the third consecutive failure it plays a message directing the user
to the on-screen buttons and stops retrying. -/
theorem landing_retry_policy (c1 c2 c3 : String) (s s1 s1e s2 s2e s3 : SApp.AppState)
    (hsc : s.currentScreen = .landing)
    (h0 : s.failedRecognitionAttempts = 0)
    (hp : s.postRecitationActionInProgress = false)
    (hw : s.isWelcomeSequencePlaying = false)
    (hn1 : SApp.noLandingKeyword c1)
    (hn2 : SApp.noLandingKeyword c2)
    (hn3 : SApp.noLandingKeyword c3)
    (e1 : s1 = SApp.handleLandingCommand c1 s)
    (e1e : s1e = SApp.appAudioEnded s1)
    (e2 : s2 = SApp.handleLandingCommand c2 s1e)
    (e2e : s2e = SApp.appAudioEnded s2)
    (e3 : s3 = SApp.handleLandingCommand c3 s2e) :
    s1.failedRecognitionAttempts = 1
    ∧ s1.audioSrc = .tts SApp.apologyMsg "ta"
    ∧ s1e.isListening = true
    ∧ s2.failedRecognitionAttempts = 2
    ∧ s2.audioSrc = .tts SApp.apologyMsg "ta"
    ∧ s2e.isListening = true
    ∧ s3.failedRecognitionAttempts = 3
    ∧ s3.audioSrc = .tts SApp.useButtonsMsg "ta"
    ∧ s3.landingOnEnded = some false
    ∧ (SApp.appAudioEnded s3).isListening = false := by
  subst e1 e1e e2 e2e e3
  obtain ⟨f1, a1, -, l1, sc1, pr1, ww1, fa1⟩ := landing_failure_round c1 s hn1 hsc hp hw
  rw [h0] at f1 a1 l1 fa1
  norm_num at f1 a1 l1 fa1
  obtain ⟨f2, a2, -, l2, sc2, pr2, ww2, fa2⟩ :=
    landing_failure_round c2 (SApp.appAudioEnded (SApp.handleLandingCommand c1 s))
      hn2 sc1 pr1 ww1
  rw [fa1] at f2 a2 l2 fa2
  norm_num at f2 a2 l2 fa2
  obtain ⟨f3, a3, o3, l3, -, -, -, -⟩ :=
    landing_failure_round c3
      (SApp.appAudioEnded (SApp.handleLandingCommand c2
        (SApp.appAudioEnded (SApp.handleLandingCommand c1 s))))
      hn3 sc2 pr2 ww2
  rw [fa2] at f3 a3 o3 l3
  norm_num at f3 a3 o3 l3
  exact ⟨f1, a1, l1, f2, a2, l2, f3, a3, o3, l3⟩

/-- Witness for C2 at concrete commands and a concrete landing state. -/
theorem landing_retry_policy_witness :
    (SApp.handleLandingCommand "hello" SApp.exLanding).failedRecognitionAttempts = 1
    ∧ (SApp.handleLandingCommand "hello" SApp.exLanding).audioSrc
      = .tts SApp.apologyMsg "ta"
    ∧ (SApp.appAudioEnded (SApp.handleLandingCommand "hello" SApp.exLanding)).isListening = true
    ∧ (SApp.handleLandingCommand "hello"
        (SApp.appAudioEnded (SApp.handleLandingCommand "hello" SApp.exLanding))).failedRecognitionAttempts = 2
    ∧ (SApp.handleLandingCommand "hello"
        (SApp.appAudioEnded (SApp.handleLandingCommand "hello" SApp.exLanding))).audioSrc
      = .tts SApp.apologyMsg "ta"
    ∧ (SApp.appAudioEnded (SApp.handleLandingCommand "hello"
        (SApp.appAudioEnded (SApp.handleLandingCommand "hello" SApp.exLanding)))).isListening = true
    ∧ (SApp.handleLandingCommand "hello"
        (SApp.appAudioEnded (SApp.handleLandingCommand "hello"
          (SApp.appAudioEnded (SApp.handleLandingCommand "hello" SApp.exLanding))))).failedRecognitionAttempts = 3
    ∧ (SApp.handleLandingCommand "hello"
        (SApp.appAudioEnded (SApp.handleLandingCommand "hello"
          (SApp.appAudioEnded (SApp.handleLandingCommand "hello" SApp.exLanding))))).audioSrc
      = .tts SApp.useButtonsMsg "ta"
    ∧ (SApp.handleLandingCommand "hello"
        (SApp.appAudioEnded (SApp.handleLandingCommand "hello"
          (SApp.appAudioEnded (SApp.handleLandingCommand "hello" SApp.exLanding))))).landingOnEnded
      = some false
    ∧ (SApp.appAudioEnded (SApp.handleLandingCommand "hello"
        (SApp.appAudioEnded (SApp.handleLandingCommand "hello"
          (SApp.appAudioEnded (SApp.handleLandingCommand "hello" SApp.exLanding)))))).isListening
      = false :=
  landing_retry_policy "hello" "hello" "hello" SApp.exLanding _ _ _ _ _
    rfl rfl rfl rfl ⟨rfl, rfl, rfl⟩ ⟨rfl, rfl, rfl⟩ ⟨rfl, rfl, rfl⟩ rfl rfl rfl rfl rfl

/-- C3: when an utterance ends naturally (the audio element's ended event,
not a manual stop): on the surah screen with a surah playing,
`handlePlaybackEnd` stops playback, plays the post-recitation prompt, and
then (when that prompt ends) starts listening; on the dua player with a
dua selected, it stops playback and automatically returns to the dua list.
On a manual stop, the surah screen shows a stopped message and stays,
while the dua player returns to the dua list. -/
theorem playback_end_behavior (s : SApp.AppState)
    (hp : s.postRecitationActionInProgress = false)
    (hw : s.isWelcomeSequencePlaying = false) :
    (s.currentScreen = .surah → s.currentSurah ≠ "" →
      (SApp.handlePlaybackEnd false s).isPlaying = false
      ∧ (SApp.handlePlaybackEnd false s).audioSrc = .tts SApp.postRecitationMsg "ta"
      ∧ (SApp.handlePlaybackEnd false s).message = SApp.postRecitationMsg
      ∧ (SApp.handlePlaybackEnd false s).postRecitationActionInProgress = true
      ∧ (SApp.handlePlaybackEnd false (SApp.handlePlaybackEnd false s)).isListening = true)
    ∧ (s.currentScreen = .duaPlayer → s.currentDua.isSome →
      (SApp.handlePlaybackEnd false s).currentScreen = .duaList
      ∧ (SApp.handlePlaybackEnd false s).currentDua = none
      ∧ (SApp.handlePlaybackEnd false s).isPlaying = false)
    ∧ (s.currentScreen = .surah →
      (SApp.handlePlaybackEnd true s).message = SApp.stoppedMsg
      ∧ (SApp.handlePlaybackEnd true s).currentScreen = .surah
      ∧ (SApp.handlePlaybackEnd true s).isPlaying = false
      ∧ (SApp.handlePlaybackEnd true s).transcription = "")
    ∧ (s.currentScreen = .duaPlayer →
      (SApp.handlePlaybackEnd true s).currentScreen = .duaList
      ∧ (SApp.handlePlaybackEnd true s).currentDua = none
      ∧ (SApp.handlePlaybackEnd true s).isPlaying = false) := by
  refine ⟨fun hsc hsu => ?_, fun hsc hdua => ?_, fun hsc => ?_, fun hsc => ?_⟩ <;>
    simp [SApp.handlePlaybackEnd, SApp.stopPlayback, SApp.goBackToDuaList,
          SApp.stopListening, SApp.startListening, hp, hw, hsc, *]

/-- Witness for C3 at a concrete surah-screen state with a surah playing. -/
theorem playback_end_behavior_witness :
    (SApp.handlePlaybackEnd false SApp.exSurahScreen).isPlaying = false
    ∧ (SApp.handlePlaybackEnd false SApp.exSurahScreen).audioSrc
      = .tts SApp.postRecitationMsg "ta"
    ∧ (SApp.handlePlaybackEnd false SApp.exSurahScreen).message = SApp.postRecitationMsg
    ∧ (SApp.handlePlaybackEnd false SApp.exSurahScreen).postRecitationActionInProgress = true
    ∧ (SApp.handlePlaybackEnd false
        (SApp.handlePlaybackEnd false SApp.exSurahScreen)).isListening = true :=
  (playback_end_behavior SApp.exSurahScreen rfl rfl).1 rfl (by decide)

/-- Stable insertion produces a permutation of consing. -/
theorem insertLenDesc_perm (k : String) (l : List String) :
    (SApp.insertLenDesc k l).Perm (k :: l) := by
  induction l with
  | nil => exact List.Perm.refl _
  | cons x xs ih =>
    rw [SApp.insertLenDesc]
    by_cases h : x.length ≤ k.length
    · simp only [h, if_true]
      exact List.Perm.refl _
    · simp only [h, if_false]
      exact (ih.cons x).trans (List.Perm.swap k x xs)

/-- The descending-length sort permutes its input. -/
theorem sortByLenDesc_perm (l : List String) : (SApp.sortByLenDesc l).Perm l := by
  induction l with
  | nil => exact List.Perm.refl _
  | cons x xs ih =>
    rw [SApp.sortByLenDesc]
    exact (insertLenDesc_perm x (SApp.sortByLenDesc xs)).trans (ih.cons x)

/-- Stable insertion preserves the descending-length ordering. -/
theorem insertLenDesc_pairwise (k : String) (l : List String)
    (h : l.Pairwise (fun a b => b.length ≤ a.length)) :
    (SApp.insertLenDesc k l).Pairwise (fun a b => b.length ≤ a.length) := by
  induction l with
  | nil => simp [SApp.insertLenDesc]
  | cons x xs ih =>
    rw [SApp.insertLenDesc]
    rcases List.pairwise_cons.mp h with ⟨hx, hxs⟩
    by_cases hle : x.length ≤ k.length
    · simp only [hle, if_true]
      refine List.pairwise_cons.mpr ⟨?_, h⟩
      intro y hy
      rcases List.mem_cons.mp hy with hy | hy
      · exact hy ▸ hle
      · exact le_trans (hx y hy) hle
    · simp only [hle, if_false]
      refine List.pairwise_cons.mpr ⟨?_, ih hxs⟩
      intro y hy
      have hy2 : y ∈ k :: xs := (insertLenDesc_perm k xs).mem_iff.mp hy
      rcases List.mem_cons.mp hy2 with hy2 | hy2
      · exact hy2 ▸ le_of_lt (lt_of_not_le hle)
      · exact hx y hy2

/-- The descending-length sort is sorted by descending length. -/
theorem sortByLenDesc_pairwise (l : List String) :
    (SApp.sortByLenDesc l).Pairwise (fun a b => b.length ≤ a.length) := by
  induction l with
  | nil => simp [SApp.sortByLenDesc]
  | cons x xs ih => exact insertLenDesc_pairwise x _ ih

/-- A key drawn from the database's key list can be looked up. -/
theorem lookupSurah_isSome (db : List (String × SApp.Surah)) (k : String)
    (h : k ∈ db.map Prod.fst) : ∃ su, SApp.lookupSurah db k = some su := by
  induction db with
  | nil => simp at h
  | cons p rest ih =>
    by_cases hb : p.1 == k
    · exact ⟨p.2, by simp [SApp.lookupSurah, List.find?, hb]⟩
    · rcases List.mem_cons.mp h with h1 | h1
      · exact absurd (beq_iff_eq.mpr h1.symm) hb
      · rcases ih h1 with ⟨su, hsu⟩
        refine ⟨su, ?_⟩
        simp only [SApp.lookupSurah, List.find?, hb] at hsu ⊢
        exact hsu

/-- Counterexample for C4: on an empty surah-screen command no database
key matches, yet `handleVoiceCommand` leaves the state — including the
message — untouched instead of setting the not-found message. -/
theorem content_lookup_empty_command :
    SApp.handleVoiceCommand SApp.exDB "" SApp.exSurahScreen = SApp.exSurahScreen
    ∧ SApp.surahKeyMatches "" "al-fatiha" = false
    ∧ SApp.exSurahScreen.message ≠ SApp.surahNotFoundMsg :=
  ⟨rfl, rfl, by decide⟩

/-- C4 (amended): voice content lookup is a linear keyword scan over the
static record sets: for surahs the database keys are sorted by descending
length (a stable sort, yielding a permutation of the keys) and, for a
NONEMPTY command, the first key that occurs in hyphenated or
space-separated form as a substring of the lowercased command is played,
while an empty command leaves the state untouched; for duas the first dua
whose keyword list has a case-insensitive substring match in the
transcript is selected; in both cases, when no record matches (the
command being nonempty in the surah case), a not-found message is set and
no playback or selection occurs. -/
theorem content_lookup_scan (db : List (String × SApp.Surah)) (duaDB : List SApp.Dua)
    (cmd t : String) (s : SApp.AppState) (hc : cmd ≠ "") :
    (SApp.sortedSurahKeys db).Pairwise (fun a b => b.length ≤ a.length)
    ∧ (SApp.sortedSurahKeys db).Perm (db.map Prod.fst)
    ∧ (∀ key, (SApp.sortedSurahKeys db).find? (SApp.surahKeyMatches cmd) = some key →
        SApp.surahKeyMatches cmd key = true
        ∧ ∃ su, SApp.lookupSurah db key = some su
            ∧ (SApp.handleVoiceCommand db cmd s).audioSrc = .url su.audio
            ∧ (SApp.handleVoiceCommand db cmd s).currentSurah = su.name
            ∧ (SApp.handleVoiceCommand db cmd s).message = SApp.playingMsg su.name)
    ∧ ((SApp.sortedSurahKeys db).find? (SApp.surahKeyMatches cmd) = none →
        (SApp.handleVoiceCommand db cmd s).message = SApp.surahNotFoundMsg
        ∧ (SApp.handleVoiceCommand db cmd s).audioSrc = s.audioSrc
        ∧ (SApp.handleVoiceCommand db cmd s).currentSurah = s.currentSurah
        ∧ (SApp.handleVoiceCommand db cmd s).isPlaying = s.isPlaying)
    ∧ (∀ d, duaDB.find? (SApp.duaMatches t) = some d →
        SApp.duaMatches t d = true
        ∧ (SApp.handleDuaRequest duaDB t s).currentDua = some d
        ∧ (SApp.handleDuaRequest duaDB t s).currentScreen = .duaPlayer)
    ∧ (duaDB.find? (SApp.duaMatches t) = none →
        (SApp.handleDuaRequest duaDB t s).duaMessage = SApp.duaNotFoundMsg
        ∧ (SApp.handleDuaRequest duaDB t s).currentDua = s.currentDua
        ∧ (SApp.handleDuaRequest duaDB t s).currentScreen = s.currentScreen) := by
  refine ⟨sortByLenDesc_pairwise _, sortByLenDesc_perm _, ?_, ?_, ?_, ?_⟩
  · intro key hkey
    have hpred := List.find?_some hkey
    have hmem : key ∈ SApp.sortedSurahKeys db := List.mem_of_find?_eq_some hkey
    have hmem2 : key ∈ db.map Prod.fst := (sortByLenDesc_perm _).mem_iff.mp hmem
    rcases lookupSurah_isSome db key hmem2 with ⟨su, hsu⟩
    refine ⟨hpred, su, hsu, ?_, ?_, ?_⟩ <;>
      simp [SApp.handleVoiceCommand, SApp.playSurah, SApp.stopPlayback, hc, hkey, hsu]
  · intro hnone
    refine ⟨?_, ?_, ?_, ?_⟩ <;> simp [SApp.handleVoiceCommand, hc, hnone]
  · intro d hd
    have hpred := List.find?_some hd
    refine ⟨hpred, ?_, ?_⟩ <;> simp [SApp.handleDuaRequest, hd]
  · intro hnone
    refine ⟨?_, ?_, ?_⟩ <;> simp [SApp.handleDuaRequest, hnone]

/-- Witness for C4: a concrete command plays the one matching surah. -/
theorem content_lookup_scan_witness :
    SApp.surahKeyMatches "play al fatiha" "al-fatiha" = true
    ∧ ∃ su, SApp.lookupSurah SApp.exDB "al-fatiha" = some su
        ∧ (SApp.handleVoiceCommand SApp.exDB "play al fatiha" SApp.exLanding).audioSrc
            = .url su.audio
        ∧ (SApp.handleVoiceCommand SApp.exDB "play al fatiha" SApp.exLanding).currentSurah
            = su.name
        ∧ (SApp.handleVoiceCommand SApp.exDB "play al fatiha" SApp.exLanding).message
            = SApp.playingMsg su.name :=
  (content_lookup_scan SApp.exDB [] "play al fatiha" "x" SApp.exLanding
    (by decide)).2.2.1 "al-fatiha" rfl

/-- C6: every quiz listening session ends in exactly one of two outcomes:
with a processed result the recognizer's `onend` handler returns `status`
to idle; without one it invokes `handleRecognitionFailure`; and the
`onerror` handler itself changes no state, so the failure path is taken
exactly once per session. -/
theorem quiz_listen_session_outcome (s : Quiz.QuizState)
    (hl : s.status = .listening) :
    (s.resultProcessed = true →
      Quiz.stepQuiz .recEnd s
        = { s with recognizerActive := false, status := .idle })
    ∧ (s.resultProcessed = false →
      Quiz.stepQuiz .recEnd s
        = Quiz.handleRecognitionFailure { s with recognizerActive := false })
    ∧ (∀ s2 : Quiz.QuizState, Quiz.stepQuiz .recError s2 = s2) := by
  refine ⟨fun hr => ?_, fun hr => ?_, fun s2 => rfl⟩ <;>
    simp [Quiz.stepQuiz, Quiz.quizOnEnd, hl, hr]

/-- Witness for C6 at a concrete listening state without a processed
result. -/
theorem quiz_listen_session_outcome_witness :
    Quiz.stepQuiz .recEnd Quiz.exListening
      = Quiz.handleRecognitionFailure { Quiz.exListening with recognizerActive := false } :=
  (quiz_listen_session_outcome Quiz.exListening rfl).2.1 rfl

/-- Selecting an answer on an open question records the selection. -/
theorem handleSelectAnswer_selected (i : Nat) (s : Quiz.QuizState)
    (hsel : s.selectedAnswer = none) (q : Quiz.QuizQuestion)
    (hq : s.sessionQuestions[s.currentQuestionIndex]? = some q) :
    (Quiz.handleSelectAnswer i s).selectedAnswer = some i := by
  by_cases hc : i = q.correctAnswer
  · by_cases hs : s.isScored <;>
      simp [Quiz.handleSelectAnswer, hsel, hq, hc, hs,
            Quiz.playFeedbackAudio, Quiz.stopAllActivity]
  · by_cases ha : (0 : Int) < s.attemptsLeft - 1 <;>
      simp [Quiz.handleSelectAnswer, hsel, hq, hc, ha,
            Quiz.playFeedbackAudio, Quiz.stopAllActivity]

/-- A recognition failure on an open question consumes exactly one
attempt. -/
theorem handleRecognitionFailure_attempts (s : Quiz.QuizState)
    (hsel : s.selectedAnswer = none) :
    (Quiz.handleRecognitionFailure s).attemptsLeft = s.attemptsLeft - 1 := by
  by_cases ha : (0 : Int) < s.attemptsLeft - 1 <;>
    simp [Quiz.handleRecognitionFailure, hsel, ha,
          Quiz.playFeedbackAudio, Quiz.stopAllActivity]

/-- C10: spoken quiz answers are parsed with fixed precedence: a cleaned
transcript that is exactly `option`/`ஆப்ஷன்` counts as a recognition
failure and consumes an attempt; otherwise the transcript selects option
1/2/3/4 by the first of the one/two/three/four tests that holds; and a
transcript matching none of these triggers the invalid-answer voice
prompt, leaves `attemptsLeft` unchanged, and then restarts listening. -/
theorem quiz_answer_parsing (s : Quiz.QuizState) (t : String)
    (hsel : s.selectedAnswer = none) (q : Quiz.QuizQuestion)
    (hq : s.sessionQuestions[s.currentQuestionIndex]? = some q) :
    (Quiz.bareOptionWord t →
      (Quiz.quizOnResult t s).attemptsLeft = s.attemptsLeft - 1)
    ∧ (¬Quiz.bareOptionWord t →
      (Quiz.saysOne t = true →
        (Quiz.quizOnResult t s).selectedAnswer = some 0)
      ∧ (Quiz.saysOne t = false → Quiz.saysTwo t = true →
        (Quiz.quizOnResult t s).selectedAnswer = some 1)
      ∧ (Quiz.saysOne t = false → Quiz.saysTwo t = false → Quiz.saysThree t = true →
        (Quiz.quizOnResult t s).selectedAnswer = some 2)
      ∧ (Quiz.saysOne t = false → Quiz.saysTwo t = false → Quiz.saysThree t = false →
         Quiz.saysFour t = true →
        (Quiz.quizOnResult t s).selectedAnswer = some 3)
      ∧ (Quiz.saysOne t = false → Quiz.saysTwo t = false → Quiz.saysThree t = false →
         Quiz.saysFour t = false →
        (Quiz.quizOnResult t s).status = .speaking
        ∧ (Quiz.quizOnResult t s).speaking = some .invalidMsg
        ∧ (Quiz.quizOnResult t s).attemptsLeft = s.attemptsLeft
        ∧ (Quiz.quizTimerFire (Quiz.quizAudioEnd (Quiz.quizOnResult t s))).status
            = .listening)) := by
  constructor
  · intro hopt
    have h1 : Quiz.quizOnResult t s
        = Quiz.handleRecognitionFailure
            { s with resultProcessed := true,
                     transcript := "நீங்கள் கூறியது: " ++ t } := by
      simp [Quiz.quizOnResult, hsel, hopt]
    rw [h1]
    exact handleRecognitionFailure_attempts _ hsel
  · intro hopt
    refine ⟨fun h1 => ?_, fun h1 h2 => ?_, fun h1 h2 h3 => ?_,
            fun h1 h2 h3 h4 => ?_, fun h1 h2 h3 h4 => ?_⟩
    · have e : Quiz.quizOnResult t s
          = Quiz.handleSelectAnswer 0
              { s with resultProcessed := true,
                       transcript := "நீங்கள் கூறியது: " ++ t } := by
        simp [Quiz.quizOnResult, hsel, hopt, hq, h1]
      rw [e]
      exact handleSelectAnswer_selected 0 _ hsel q hq
    · have e : Quiz.quizOnResult t s
          = Quiz.handleSelectAnswer 1
              { s with resultProcessed := true,
                       transcript := "நீங்கள் கூறியது: " ++ t } := by
        simp [Quiz.quizOnResult, hsel, hopt, hq, h1, h2]
      rw [e]
      exact handleSelectAnswer_selected 1 _ hsel q hq
    · have e : Quiz.quizOnResult t s
          = Quiz.handleSelectAnswer 2
              { s with resultProcessed := true,
                       transcript := "நீங்கள் கூறியது: " ++ t } := by
        simp [Quiz.quizOnResult, hsel, hopt, hq, h1, h2, h3]
      rw [e]
      exact handleSelectAnswer_selected 2 _ hsel q hq
    · have e : Quiz.quizOnResult t s
          = Quiz.handleSelectAnswer 3
              { s with resultProcessed := true,
                       transcript := "நீங்கள் கூறியது: " ++ t } := by
        simp [Quiz.quizOnResult, hsel, hopt, hq, h1, h2, h3, h4]
      rw [e]
      exact handleSelectAnswer_selected 3 _ hsel q hq
    · have e : Quiz.quizOnResult t s
          = Quiz.playInvalidAnswerFeedback
              { s with resultProcessed := true,
                       transcript := "நீங்கள் கூறியது: " ++ t } := by
        simp [Quiz.quizOnResult, hsel, hopt, hq, h1, h2, h3, h4]
      rw [e]
      refine ⟨rfl, rfl, rfl, ?_⟩
      simp [Quiz.playInvalidAnswerFeedback, Quiz.stopAllActivity,
            Quiz.quizAudioEnd, Quiz.quizTimerFire, Quiz.startListening, hsel]

/-- Witness for C10: the Tamil transcript for option two selects the
second option. -/
theorem quiz_answer_parsing_witness :
    (Quiz.quizOnResult "ஆப்ஷன் இரண்டு" Quiz.exListening).selectedAnswer = some 1 :=
  ((quiz_answer_parsing Quiz.exListening "ஆப்ஷன் இரண்டு" rfl Quiz.exQ rfl).2
    (by decide)).2.1 (by decide) (by decide)

/-- Any state whose recognizer is inactive satisfies the mutual-exclusion
invariant. -/
theorem c1inv_of_rec_false (s : Quiz.QuizState)
    (h : s.recognizerActive = false) : Quiz.C1Inv s := by
  simp [Quiz.C1Inv, h]

/-- `startListening` preserves the invariant: it only activates the
recognizer with `status` moving to listening. -/
theorem c1inv_startListening (s : Quiz.QuizState) (h : Quiz.C1Inv s) :
    Quiz.C1Inv (Quiz.startListening s) := by
  simp only [Quiz.startListening]
  split
  · exact h
  · intro _
    simp

/-- `handleSelectAnswer` leaves the recognizer aborted or the state
unchanged. -/
theorem c1inv_handleSelectAnswer (i : Nat) (s : Quiz.QuizState)
    (h : Quiz.C1Inv s) : Quiz.C1Inv (Quiz.handleSelectAnswer i s) := by
  simp only [Quiz.handleSelectAnswer]
  split
  · exact h
  · split
    · exact h
    · split
      · exact c1inv_of_rec_false _ rfl
      · split
        · exact c1inv_of_rec_false _ rfl
        · exact c1inv_of_rec_false _ rfl

/-- `handleRecognitionFailure` leaves the recognizer aborted or the state
unchanged. -/
theorem c1inv_handleRecognitionFailure (s : Quiz.QuizState)
    (h : Quiz.C1Inv s) : Quiz.C1Inv (Quiz.handleRecognitionFailure s) := by
  simp only [Quiz.handleRecognitionFailure]
  split
  · exact h
  · split
    · exact c1inv_of_rec_false _ rfl
    · exact c1inv_of_rec_false _ rfl

/-- `proceedToNext` always ends with an aborted recognizer. -/
theorem proceedToNext_rec (s : Quiz.QuizState) :
    (Quiz.proceedToNext s).recognizerActive = false := by
  simp only [Quiz.proceedToNext, Quiz.questionEffect, Quiz.scorecardEffect]
  split <;> split <;> rfl

/-- `startNewQuiz` always ends with an aborted recognizer. -/
theorem startNewQuiz_rec (l : List Quiz.QuizQuestion) (s : Quiz.QuizState) :
    (Quiz.startNewQuiz l s).recognizerActive = false := by
  simp only [Quiz.startNewQuiz, Quiz.questionEffect]
  split <;> rfl

/-- The recognizer's `onend` always leaves the recognizer inactive. -/
theorem quizOnEnd_rec (s : Quiz.QuizState) :
    (Quiz.quizOnEnd s).recognizerActive = false := by
  simp only [Quiz.quizOnEnd, Quiz.handleRecognitionFailure]
  split
  · split
    · rfl
    · split
      · rfl
      · split <;> rfl
  · rfl

/-- `onresult` preserves the invariant. -/
theorem c1inv_quizOnResult (t : String) (s : Quiz.QuizState)
    (h : Quiz.C1Inv s) : Quiz.C1Inv (Quiz.quizOnResult t s) := by
  simp only [Quiz.quizOnResult]
  split
  · exact h
  · split
    · exact c1inv_handleRecognitionFailure _ h
    · split
      · exact h
      · split
        · exact c1inv_handleSelectAnswer _ _ h
        · split
          · exact c1inv_handleSelectAnswer _ _ h
          · split
            · exact c1inv_handleSelectAnswer _ _ h
            · split
              · exact c1inv_handleSelectAnswer _ _ h
              · exact c1inv_of_rec_false _ rfl

/-- The audio `ended` dispatcher preserves the invariant. -/
theorem c1inv_quizAudioEnd (s : Quiz.QuizState) (h : Quiz.C1Inv s) :
    Quiz.C1Inv (Quiz.quizAudioEnd s) := by
  simp only [Quiz.quizAudioEnd]
  split
  · exact h
  · split <;> intro hr <;> first | exact h hr | simp

/-- One step of the quiz screen preserves the invariant. -/
theorem c1inv_step (e : Quiz.QEvent) (s : Quiz.QuizState) (h : Quiz.C1Inv s) :
    Quiz.C1Inv (Quiz.stepQuiz e s) := by
  cases e with
  | startQuiz l => exact c1inv_of_rec_false _ (startNewQuiz_rec l s)
  | micClick => exact c1inv_startListening s h
  | clickAnswer i => exact c1inv_handleSelectAnswer i s h
  | recResult t => exact c1inv_quizOnResult t s h
  | recEnd => exact c1inv_of_rec_false _ (quizOnEnd_rec s)
  | recError => exact h
  | audioEnd => exact c1inv_quizAudioEnd s h
  | timerFire =>
    show Quiz.C1Inv (Quiz.quizTimerFire s)
    simp only [Quiz.quizTimerFire]
    split
    · exact h
    · split
      · exact c1inv_of_rec_false _ (proceedToNext_rec _)
      · exact c1inv_startListening _ h
  | looseTimerFire =>
    show Quiz.C1Inv (Quiz.quizLooseTimerFire s)
    simp only [Quiz.quizLooseTimerFire]
    split
    · exact c1inv_startListening _ h
    · exact h

/-- Every reachable quiz state satisfies the invariant. -/
theorem c1inv_reachable (bank : List Quiz.QuizQuestion) (s : Quiz.QuizState)
    (h : Quiz.QReachable bank s) : Quiz.C1Inv s := by
  induction h with
  | init => exact c1inv_of_rec_false _ rfl
  | step e _ _ ih => exact c1inv_step e _ ih

/-- C1: listening and speaking never overlap on the quiz screen:
`startListening` is a no-op unless `status` is idle and `selectedAnswer`
is null; every text-to-speech playback routine aborts the recognizer and
clears the pending timer (via `stopAllActivity`) before setting `status`
to speaking; and in every reachable state the recognizer is never active
while feedback or question audio is playing. -/
theorem quiz_no_listen_while_speaking :
    (∀ s : Quiz.QuizState, s.status ≠ .idle ∨ s.selectedAnswer ≠ none →
      Quiz.startListening s = s)
    ∧ (∀ (t : Quiz.FeedbackType) (s : Quiz.QuizState),
        (Quiz.playFeedbackAudio t s).recognizerActive = false
        ∧ (Quiz.playFeedbackAudio t s).status = .speaking
        ∧ (Quiz.playFeedbackAudio t s).pendingTimer = none)
    ∧ (∀ s : Quiz.QuizState,
        (Quiz.playQuestionAudio s).recognizerActive = false
        ∧ (Quiz.playQuestionAudio s).status = .speaking
        ∧ (Quiz.playQuestionAudio s).pendingTimer = none)
    ∧ (∀ s : Quiz.QuizState,
        (Quiz.playInvalidAnswerFeedback s).recognizerActive = false
        ∧ (Quiz.playInvalidAnswerFeedback s).status = .speaking
        ∧ (Quiz.playInvalidAnswerFeedback s).pendingTimer = none)
    ∧ (∀ (bank : List Quiz.QuizQuestion) (s : Quiz.QuizState),
        Quiz.QReachable bank s →
        ¬(s.recognizerActive = true ∧ s.status = .speaking)) := by
  refine ⟨?_, fun t s => ⟨rfl, rfl, rfl⟩, fun s => ⟨rfl, rfl, rfl⟩,
          fun s => ⟨rfl, rfl, rfl⟩, ?_⟩
  · intro s h
    simp only [Quiz.startListening]
    rw [if_pos h]
  · intro bank s hr hc
    exact c1inv_reachable bank s hr hc.1 hc.2

/-- Witness for C1: a concrete reachable state (after starting a quiz and
clicking the mic during the question audio) respects the invariant. -/
theorem quiz_no_listen_while_speaking_witness :
    ¬((Quiz.stepQuiz .micClick
        (Quiz.stepQuiz (.startQuiz [Quiz.exQ]) Quiz.qInit)).recognizerActive = true
      ∧ (Quiz.stepQuiz .micClick
        (Quiz.stepQuiz (.startQuiz [Quiz.exQ]) Quiz.qInit)).status = .speaking) :=
  quiz_no_listen_while_speaking.2.2.2.2 [Quiz.exQ] _
    (Quiz.QReachable.step .micClick
      (Quiz.QReachable.step (.startQuiz [Quiz.exQ]) Quiz.QReachable.init
        (List.Perm.refl _))
      trivial)

/-- The scoring invariant only reads the scoring fields. -/
theorem qinv_core (bank : List Quiz.QuizQuestion) {s s' : Quiz.QuizState}
    (hc : Quiz.qcore s' = Quiz.qcore s) (h : Quiz.QInv bank s) :
    Quiz.QInv bank s' := by
  simp only [Quiz.qcore, Prod.mk.injEq] at hc
  obtain ⟨e1, e2, e3, e4, e5⟩ := hc
  unfold Quiz.QInv at h ⊢
  rw [e1, e2, e3, e4, e5]
  exact h

/-- `startListening` does not touch the scoring fields. -/
theorem qcore_startListening (s : Quiz.QuizState) :
    Quiz.qcore (Quiz.startListening s) = Quiz.qcore s := by
  simp only [Quiz.startListening]
  split <;> rfl

/-- `handleRecognitionFailure` does not touch the scoring fields. -/
theorem qcore_handleRecognitionFailure (s : Quiz.QuizState) :
    Quiz.qcore (Quiz.handleRecognitionFailure s) = Quiz.qcore s := by
  simp only [Quiz.handleRecognitionFailure]
  split
  · rfl
  · split <;> rfl

/-- The recognizer's `onend` does not touch the scoring fields. -/
theorem qcore_quizOnEnd (s : Quiz.QuizState) :
    Quiz.qcore (Quiz.quizOnEnd s) = Quiz.qcore s := by
  simp only [Quiz.quizOnEnd]
  split
  · split
    · rfl
    · exact qcore_handleRecognitionFailure _
  · rfl

/-- The audio `ended` dispatcher does not touch the scoring fields. -/
theorem qcore_quizAudioEnd (s : Quiz.QuizState) :
    Quiz.qcore (Quiz.quizAudioEnd s) = Quiz.qcore s := by
  simp only [Quiz.quizAudioEnd]
  split
  · rfl
  · split <;> rfl

/-- `scorecardEffect` does not touch the scoring fields. -/
theorem qcore_scorecardEffect (s : Quiz.QuizState) :
    Quiz.qcore (Quiz.scorecardEffect s) = Quiz.qcore s := by
  simp only [Quiz.scorecardEffect]
  split <;> rfl

/-- `handleSelectAnswer` on a first correct answer: the point is scored. -/
theorem handleSelectAnswer_eq_correct_new (i : Nat) (s : Quiz.QuizState)
    (q : Quiz.QuizQuestion) (hg : s.selectedAnswer = none)
    (hq : s.sessionQuestions[s.currentQuestionIndex]? = some q)
    (hc : i = q.correctAnswer) (hsc : s.isScored = false) :
    Quiz.handleSelectAnswer i s
      = Quiz.playFeedbackAudio .correct
          { s with selectedAnswer := some i, isCorrect := some true,
                   score := s.score + 1, isScored := true } := by
  simp [Quiz.handleSelectAnswer, hg, hq, hc, hsc, Quiz.playFeedbackAudio,
        Quiz.stopAllActivity]

/-- `handleSelectAnswer` on a correct answer already scored: no point. -/
theorem handleSelectAnswer_eq_correct_old (i : Nat) (s : Quiz.QuizState)
    (q : Quiz.QuizQuestion) (hg : s.selectedAnswer = none)
    (hq : s.sessionQuestions[s.currentQuestionIndex]? = some q)
    (hc : i = q.correctAnswer) (hsc : s.isScored = true) :
    Quiz.handleSelectAnswer i s
      = Quiz.playFeedbackAudio .correct
          { s with selectedAnswer := some i, isCorrect := some true } := by
  simp [Quiz.handleSelectAnswer, hg, hq, hc, hsc, Quiz.playFeedbackAudio,
        Quiz.stopAllActivity]

/-- `handleSelectAnswer` on a wrong answer: an attempt is consumed and no
point is scored. -/
theorem handleSelectAnswer_eq_wrong (i : Nat) (s : Quiz.QuizState)
    (q : Quiz.QuizQuestion) (hg : s.selectedAnswer = none)
    (hq : s.sessionQuestions[s.currentQuestionIndex]? = some q)
    (hc : ¬i = q.correctAnswer) :
    Quiz.handleSelectAnswer i s
      = Quiz.playFeedbackAudio
          (if 0 < s.attemptsLeft - 1 then .incorrect else .finalIncorrect)
          { s with selectedAnswer := some i, isCorrect := some false,
                   attemptsLeft := s.attemptsLeft - 1 } := by
  by_cases ha : (0 : Int) < s.attemptsLeft - 1 <;>
    simp [Quiz.handleSelectAnswer, hg, hq, hc, ha, Quiz.playFeedbackAudio,
          Quiz.stopAllActivity]

/-- `handleSelectAnswer` preserves the scoring invariant. -/
theorem qinv_handleSelectAnswer (bank : List Quiz.QuizQuestion) (i : Nat)
    (s : Quiz.QuizState) (h : Quiz.QInv bank s) :
    Quiz.QInv bank (Quiz.handleSelectAnswer i s) := by
  by_cases hg : s.selectedAnswer = none
  · rcases hq : s.sessionQuestions[s.currentQuestionIndex]? with _ | q
    · have e : Quiz.handleSelectAnswer i s = s := by
        simp [Quiz.handleSelectAnswer, hg, hq]
      rw [e]
      exact h
    · have hlen := (List.getElem?_eq_some.mp hq).1
      obtain ⟨h1, h2, h3, h4, h5⟩ := h
      by_cases hsc : s.isScored
      · by_cases hc : i = q.correctAnswer
        · rw [handleSelectAnswer_eq_correct_old i s q hg hq hc hsc]
          refine ⟨?_, h2, ?_, h4, h5⟩
          · simpa [Quiz.playFeedbackAudio, Quiz.stopAllActivity] using h1
          · intro hz
            have hz' : s.sessionQuestions.length = 0 := hz
            exact absurd hz' (by omega)
        · rw [handleSelectAnswer_eq_wrong i s q hg hq hc]
          refine ⟨?_, h2, ?_, h4, h5⟩
          · simpa [Quiz.playFeedbackAudio, Quiz.stopAllActivity] using h1
          · intro hz
            have hz' : s.sessionQuestions.length = 0 := hz
            exact absurd hz' (by omega)
      · have hsc' : s.isScored = false := by simpa using hsc
        by_cases hc : i = q.correctAnswer
        · rw [handleSelectAnswer_eq_correct_new i s q hg hq hc hsc']
          refine ⟨?_, h2, ?_, h4, h5⟩
          · have h1' : s.score ≤ s.currentQuestionIndex := by
              simpa [hsc'] using h1
            have hgoal : s.score + 1 ≤ s.currentQuestionIndex + 1 := by omega
            simpa [Quiz.playFeedbackAudio, Quiz.stopAllActivity] using hgoal
          · intro hz
            have hz' : s.sessionQuestions.length = 0 := hz
            exact absurd hz' (by omega)
        · rw [handleSelectAnswer_eq_wrong i s q hg hq hc]
          refine ⟨?_, h2, ?_, h4, h5⟩
          · simpa [Quiz.playFeedbackAudio, Quiz.stopAllActivity] using h1
          · intro hz
            have hz' : s.sessionQuestions.length = 0 := hz
            exact absurd hz' (by omega)
  · have e : Quiz.handleSelectAnswer i s = s := by
      simp [Quiz.handleSelectAnswer, hg]
    rw [e]
    exact h

/-- `proceedToNext` on a non-final question advances and reruns the
question effect. -/
theorem proceedToNext_eq_advance (s : Quiz.QuizState)
    (hlt : s.currentQuestionIndex < s.sessionQuestions.length - 1)
    (hgs : s.gameState = .playing) :
    Quiz.proceedToNext s
      = Quiz.playQuestionAudio (Quiz.resetQuestionState
          { Quiz.stopAllActivity s with
              currentQuestionIndex := s.currentQuestionIndex + 1 }) := by
  have hlt2 : s.currentQuestionIndex + 1 < s.sessionQuestions.length := by omega
  simp [Quiz.proceedToNext, Quiz.questionEffect, Quiz.stopAllActivity, hlt, hgs,
        List.getElem?_eq_getElem hlt2]

/-- `proceedToNext` on the final question finishes the game. -/
theorem proceedToNext_eq_finish (s : Quiz.QuizState)
    (hge : ¬s.currentQuestionIndex < s.sessionQuestions.length - 1) :
    Quiz.proceedToNext s
      = Quiz.scorecardEffect { Quiz.stopAllActivity s with gameState := .finished } := by
  simp [Quiz.proceedToNext, Quiz.stopAllActivity, hge]

/-- `proceedToNext` preserves the scoring invariant. -/
theorem qinv_proceedToNext (bank : List Quiz.QuizQuestion) (s : Quiz.QuizState)
    (h : Quiz.QInv bank s) : Quiz.QInv bank (Quiz.proceedToNext s) := by
  obtain ⟨h1, h2, h3, h4, h5⟩ := h
  by_cases hlt : s.currentQuestionIndex < s.sessionQuestions.length - 1
  · have hgs : s.gameState = .playing := by
      cases hg : s.gameState with
      | playing => rfl
      | finished => exact absurd hlt (h5 hg)
    rw [proceedToNext_eq_advance s hlt hgs]
    refine ⟨?_, h2, ?_, ?_, ?_⟩
    · have : s.score ≤ s.currentQuestionIndex + 1 := by
        by_cases hsc : s.isScored <;> simp [hsc] at h1 <;> omega
      simpa [Quiz.playQuestionAudio, Quiz.resetQuestionState,
             Quiz.stopAllActivity] using this
    · intro hz
      have hz' : s.sessionQuestions.length = 0 := hz
      exact absurd hz' (by omega)
    · intro _
      have hgoal : s.currentQuestionIndex + 1 < s.sessionQuestions.length := by omega
      simpa [Quiz.playQuestionAudio, Quiz.resetQuestionState,
             Quiz.stopAllActivity] using hgoal
    · intro hcontra
      have hfin : s.gameState = Quiz.GState.finished := hcontra
      rw [hgs] at hfin
      simp at hfin
  · rw [proceedToNext_eq_finish s hlt]
    refine qinv_core bank (qcore_scorecardEffect _) ⟨h1, h2, h3, h4, ?_⟩
    intro _
    exact hlt

/-- The session list installed by `startNewQuiz`. -/
theorem startNewQuiz_sessions (l : List Quiz.QuizQuestion) (s : Quiz.QuizState) :
    (Quiz.startNewQuiz l s).sessionQuestions = l.take 5 := by
  simp only [Quiz.startNewQuiz, Quiz.questionEffect]
  split <;> rfl

/-- `startNewQuiz` with a nonempty session resets the per-question state
and plays the first question. -/
theorem startNewQuiz_eq_pos (l : List Quiz.QuizQuestion) (s : Quiz.QuizState)
    (h0 : 0 < (l.take 5).length) :
    Quiz.startNewQuiz l s
      = Quiz.playQuestionAudio (Quiz.resetQuestionState
          { Quiz.stopAllActivity s with
              sessionQuestions := l.take 5, currentQuestionIndex := 0,
              score := 0, gameState := .playing }) := by
  simp [Quiz.startNewQuiz, Quiz.questionEffect, Quiz.stopAllActivity,
        List.getElem?_eq_getElem h0]

/-- `startNewQuiz` with an empty bank installs an empty session and the
question effect does not fire. -/
theorem startNewQuiz_eq_zero (l : List Quiz.QuizQuestion) (s : Quiz.QuizState)
    (h0 : (l.take 5).length = 0) :
    Quiz.startNewQuiz l s
      = { Quiz.stopAllActivity s with
            sessionQuestions := l.take 5, currentQuestionIndex := 0,
            score := 0, gameState := .playing } := by
  have hn : (l.take 5)[0]? = none := List.getElem?_eq_none (by omega)
  simp [Quiz.startNewQuiz, Quiz.questionEffect, Quiz.stopAllActivity, hn]

/-- `startNewQuiz` with a permutation of the bank preserves the scoring
invariant. -/
theorem qinv_startNewQuiz (bank l : List Quiz.QuizQuestion) (s : Quiz.QuizState)
    (hl : l.Perm bank) (h : Quiz.QInv bank s) :
    Quiz.QInv bank (Quiz.startNewQuiz l s) := by
  obtain ⟨h1, h2, h3, h4, h5⟩ := h
  have hlen : (l.take 5).length = min 5 bank.length := by
    rw [List.length_take, hl.length_eq]
  by_cases h0 : 0 < (l.take 5).length
  · rw [startNewQuiz_eq_pos l s h0]
    refine ⟨?_, ?_, ?_, ?_, ?_⟩
    · simp [Quiz.playQuestionAudio, Quiz.resetQuestionState, Quiz.stopAllActivity]
    · right
      simpa [Quiz.playQuestionAudio, Quiz.resetQuestionState,
             Quiz.stopAllActivity] using hlen
    · intro hz
      have hz' : (l.take 5).length = 0 := hz
      exact absurd hz' (by omega)
    · intro _
      simpa [Quiz.playQuestionAudio, Quiz.resetQuestionState,
             Quiz.stopAllActivity] using h0
    · intro hcontra
      have : Quiz.GState.playing = Quiz.GState.finished := hcontra
      simp at this
  · have hz : (l.take 5).length = 0 := by omega
    rw [startNewQuiz_eq_zero l s hz]
    have hbank : bank.length = 0 := by
      rw [hlen] at hz
      omega
    have hpre : s.sessionQuestions.length = 0 := by
      rcases h2 with h2 | h2
      · exact h2
      · rw [h2, hbank]
        simp
    refine ⟨?_, Or.inl ?_, ?_, ?_, ?_⟩
    · simp [Quiz.stopAllActivity]
    · simpa [Quiz.stopAllActivity] using hz
    · intro _
      refine ⟨rfl, rfl, ?_⟩
      simpa [Quiz.stopAllActivity] using (h3 hpre).2.2
    · intro hcontra
      have hcontra' : 0 < (l.take 5).length := hcontra
      exact absurd hcontra' (by omega)
    · intro hcontra
      have : Quiz.GState.playing = Quiz.GState.finished := hcontra
      simp at this

/-- One step of the quiz screen preserves the scoring invariant. -/
theorem qinv_step (bank : List Quiz.QuizQuestion) (e : Quiz.QEvent)
    (s : Quiz.QuizState) (hv : Quiz.evValid bank e) (h : Quiz.QInv bank s) :
    Quiz.QInv bank (Quiz.stepQuiz e s) := by
  cases e with
  | startQuiz l => exact qinv_startNewQuiz bank l s hv h
  | micClick => exact qinv_core bank (qcore_startListening s) h
  | clickAnswer i => exact qinv_handleSelectAnswer bank i s h
  | recResult t =>
    show Quiz.QInv bank (Quiz.quizOnResult t s)
    simp only [Quiz.quizOnResult]
    split
    · exact h
    · split
      · exact qinv_core bank (qcore_handleRecognitionFailure _) h
      · split
        · exact h
        · split
          · exact qinv_handleSelectAnswer bank 0 _ h
          · split
            · exact qinv_handleSelectAnswer bank 1 _ h
            · split
              · exact qinv_handleSelectAnswer bank 2 _ h
              · split
                · exact qinv_handleSelectAnswer bank 3 _ h
                · exact qinv_core bank rfl h
  | recEnd => exact qinv_core bank (qcore_quizOnEnd s) h
  | recError => exact h
  | audioEnd => exact qinv_core bank (qcore_quizAudioEnd s) h
  | timerFire =>
    show Quiz.QInv bank (Quiz.quizTimerFire s)
    simp only [Quiz.quizTimerFire]
    split
    · exact h
    · split
      · exact qinv_proceedToNext bank _ h
      · exact qinv_core bank (qcore_startListening _) h
  | looseTimerFire =>
    show Quiz.QInv bank (Quiz.quizLooseTimerFire s)
    simp only [Quiz.quizLooseTimerFire]
    split
    · exact qinv_core bank (qcore_startListening _) h
    · exact h

/-- Every reachable quiz state satisfies the scoring invariant. -/
theorem qinv_reachable (bank : List Quiz.QuizQuestion) (s : Quiz.QuizState)
    (h : Quiz.QReachable bank s) : Quiz.QInv bank s := by
  induction h with
  | init =>
    unfold Quiz.QInv
    simp [Quiz.qInit]
  | step e _ hv ih => exact qinv_step bank e _ hv ih

/-- C9: in every quiz session, `sessionQuestions` holds `min 5 |bank|`
questions drawn from the shuffled bank; each question starts with
`attemptsLeft = 3`, `selectedAnswer` null and `isScored` false (both at
session start and whenever `proceedToNext` advances the index); the score
never exceeds the number of session questions; and the final scorecard
percentage equals `round(100 * score / sessionQuestions.length)`. -/
theorem quiz_session_scoring (bank : List Quiz.QuizQuestion) (s : Quiz.QuizState)
    (hr : Quiz.QReachable bank s) :
    (∀ l, l.Perm bank →
      (Quiz.stepQuiz (.startQuiz l) s).sessionQuestions.length = min 5 bank.length
      ∧ (∀ q ∈ (Quiz.stepQuiz (.startQuiz l) s).sessionQuestions, q ∈ bank)
      ∧ (0 < bank.length →
          (Quiz.stepQuiz (.startQuiz l) s).attemptsLeft = 3
          ∧ (Quiz.stepQuiz (.startQuiz l) s).selectedAnswer = none
          ∧ (Quiz.stepQuiz (.startQuiz l) s).isScored = false))
    ∧ ((Quiz.proceedToNext s).currentQuestionIndex ≠ s.currentQuestionIndex →
        (Quiz.proceedToNext s).attemptsLeft = 3
        ∧ (Quiz.proceedToNext s).selectedAnswer = none
        ∧ (Quiz.proceedToNext s).isScored = false)
    ∧ s.score ≤ s.sessionQuestions.length
    ∧ (s.gameState = .finished → 0 < s.sessionQuestions.length →
        Quiz.scorecardPercent s
          = mathRound ((100 * (s.score : ℚ)) / (s.sessionQuestions.length : ℚ))) := by
  obtain ⟨h1, h2, h3, h4, h5⟩ := qinv_reachable bank s hr
  refine ⟨?_, ?_, ?_, ?_⟩
  · intro l hl
    have hsess : (Quiz.stepQuiz (.startQuiz l) s).sessionQuestions = l.take 5 :=
      startNewQuiz_sessions l s
    have hlen : (l.take 5).length = min 5 bank.length := by
      rw [List.length_take, hl.length_eq]
    refine ⟨by rw [hsess, hlen], ?_, ?_⟩
    · intro q hq
      rw [hsess] at hq
      exact hl.mem_iff.mp (List.take_subset 5 l hq)
    · intro hbpos
      have h0 : 0 < (l.take 5).length := by
        rw [hlen]
        omega
      have e : Quiz.stepQuiz (.startQuiz l) s = Quiz.startNewQuiz l s := rfl
      rw [e, startNewQuiz_eq_pos l s h0]
      exact ⟨rfl, rfl, rfl⟩
  · intro hne
    by_cases hlt : s.currentQuestionIndex < s.sessionQuestions.length - 1
    · have hgs : s.gameState = .playing := by
        cases hg : s.gameState with
        | playing => rfl
        | finished => exact absurd hlt (h5 hg)
      rw [proceedToNext_eq_advance s hlt hgs]
      exact ⟨rfl, rfl, rfl⟩
    · exfalso
      apply hne
      have hsc : ∀ x : Quiz.QuizState,
          (Quiz.scorecardEffect x).currentQuestionIndex = x.currentQuestionIndex := by
        intro x
        simp only [Quiz.scorecardEffect]
        split <;> rfl
      rw [proceedToNext_eq_finish s hlt, hsc]
      rfl
  · by_cases hz : s.sessionQuestions.length = 0
    · have := (h3 hz).2.1
      omega
    · have hpos : 0 < s.sessionQuestions.length := by omega
      have hidx := h4 hpos
      by_cases hscored : s.isScored <;> simp [hscored] at h1 <;> omega
  · intro hfin hpos
    unfold Quiz.scorecardPercent
    rw [if_neg (by omega)]
    congr 1
    rw [div_mul_eq_mul_div, mul_comm]

/-- Witness for C9: a fresh session over a one-question bank. -/
theorem quiz_session_scoring_witness :
    (Quiz.stepQuiz (.startQuiz [Quiz.exQ]) Quiz.qInit).sessionQuestions.length
      = min 5 ([Quiz.exQ].length)
    ∧ (∀ q ∈ (Quiz.stepQuiz (.startQuiz [Quiz.exQ]) Quiz.qInit).sessionQuestions,
        q ∈ [Quiz.exQ])
    ∧ (0 < ([Quiz.exQ] : List Quiz.QuizQuestion).length →
        (Quiz.stepQuiz (.startQuiz [Quiz.exQ]) Quiz.qInit).attemptsLeft = 3
        ∧ (Quiz.stepQuiz (.startQuiz [Quiz.exQ]) Quiz.qInit).selectedAnswer = none
        ∧ (Quiz.stepQuiz (.startQuiz [Quiz.exQ]) Quiz.qInit).isScored = false) :=
  (quiz_session_scoring [Quiz.exQ] Quiz.qInit Quiz.QReachable.init).1
    [Quiz.exQ] (List.Perm.refl _)
